import Mathlib

/-!
Verification of the microservice client layer and health aggregation of the
EdgExpo backend (`backend/services/microservice_client.py`, `backend/app.py`).

The Python code is shallowly embedded: each client operation becomes a total
Lean function over an explicit model of the backend's observable behaviour
(HTTP transport outcome, parsed JSON body), and Python exceptions become an
explicit `Except` error channel.  A raised `requests.RequestException` is
distinguished from a plain `Exception`, because the operation-level retry
decorator branches on exactly that distinction.
-/

/-- A raised Python exception, as observed by `except` clauses in the client
layer.  `requestExc` stands for any `requests.exceptions.RequestException`
(the class the retry decorator retries on); `plainExc` stands for any other
`Exception`.  The string is the exception's message (`str(e)`). -/
inductive PyErr where
  | requestExc (msg : String)
  | plainExc (msg : String)
deriving DecidableEq, Repr

/-- Whether the exception is an instance of `requests.exceptions.RequestException`. -/
def PyErr.isRequestExc : PyErr → Bool
  | .requestExc _ => true
  | .plainExc _ => false

/-- The message carried by the exception (`str(e)`). -/
def PyErr.msg : PyErr → String
  | .requestExc m => m
  | .plainExc m => m

/-- A JSON value, the result of `response.json()` and the type of the Python
dicts the health checks build and return. -/
inductive JsonVal where
  | jnull
  | jbool (b : Bool)
  | jnum (n : Int)
  | jstr (s : String)
  | jarr (xs : List JsonVal)
  | jobj (fields : List (String × JsonVal))

/-- `d.get(k)` on a Python value: key lookup when the value is a dict,
`none` models Python's `None` result for a missing key.  Returns an
`AttributeError` when the value is not a dict (lists and strings have no
`.get`). -/
def dictGet (j : JsonVal) (k : String) : Except PyErr (Option JsonVal) :=
  match j with
  | .jobj fs => .ok (fs.lookup k)
  | _ => .error (.plainExc "AttributeError: get")

/-- `d.get(k, default)` on a Python value. -/
def dictGetD (j : JsonVal) (k : String) (d : JsonVal) : Except PyErr JsonVal :=
  match dictGet j k with
  | .ok o => .ok (o.getD d)
  | .error e => .error e

/-- Python truthiness of a JSON value (`if embeddings:`). -/
def jTruthy : JsonVal → Bool
  | .jnull => false
  | .jbool b => b
  | .jnum n => n != 0
  | .jstr s => s != ""
  | .jarr xs => !xs.isEmpty
  | .jobj fs => !fs.isEmpty

/-- Python `value[0]`: head of a list, first character of a string,
`IndexError` when empty, `TypeError` on non-indexable values. -/
def jIndex0 : JsonVal → Except PyErr JsonVal
  | .jarr (x :: _) => .ok x
  | .jarr [] => .error (.plainExc "IndexError")
  | .jstr s =>
    match s.data with
    | [] => .error (.plainExc "IndexError")
    | c :: _ => .ok (.jstr (String.mk [c]))
  | _ => .error (.plainExc "TypeError")

/-- Python `str()` rendering used when a JSON value is interpolated into an
error message.  Container renderings are abstracted to fixed tags; the claims
only depend on the string case. -/
def pyStr : JsonVal → String
  | .jnull => "None"
  | .jbool true => "True"
  | .jbool false => "False"
  | .jnum n => toString n
  | .jstr s => s
  | .jarr _ => "<list>"
  | .jobj _ => "<dict>"

/-- Field lookup on a JSON value when it is a dict (`none` otherwise);
used to state properties of the dicts the health checks return. -/
def jLookup (j : JsonVal) (k : String) : Option JsonVal :=
  match j with
  | .jobj fs => fs.lookup k
  | _ => none

/-- An HTTP response as the client observes it: status code, the result of
parsing the body as JSON (`none` when `.json()` would raise), and the raw
body bytes (`response.content`). -/
structure HttpResp where
  status : Nat
  body : Option JsonVal
  content : List Nat

/-- The outcome of one underlying HTTP exchange, after the session's
transport-level (urllib3) retries: either a response came back, or the
request raised a timeout / connection error. -/
inductive TransportOutcome where
  | success (r : HttpResp)
  | timeout
  | connError

/-- `response.json()`: the parsed body, raising when the body is not valid
JSON. -/
def HttpResp.json (r : HttpResp) : Except PyErr JsonVal :=
  match r.body with
  | some j => .ok j
  | none => .error (.plainExc "JSONDecodeError")

/-- `ServiceSession.request` (`microservice_client.py` lines 76-90): issue
the request, call `raise_for_status()`, and translate each of
`Timeout`, `ConnectionError`, `HTTPError` into a service-qualified plain
`Exception` (`raise Exception(...)` discards the `RequestException` type). -/
def ServiceSession.request (serviceName : String) (t : TransportOutcome) :
    Except PyErr HttpResp :=
  match t with
  | .timeout => .error (.plainExc (serviceName ++ "服務請求超時"))
  | .connError => .error (.plainExc (serviceName ++ "服務連接失敗"))
  | .success r =>
    if 400 ≤ r.status ∧ r.status < 600 then
      .error (.plainExc (serviceName ++ "服務HTTP錯誤: " ++ toString r.status))
    else
      .ok r

/-- The observable outcome of one call of a function wrapped by `with_retry`:
the final result, the total number of attempts made, and the sequence of
back-off sleeps performed (in seconds). -/
structure RetryResult (α : Type) where
  result : Except PyErr α
  attempts : Nat
  sleeps : List ℚ
deriving Repr

/-- The loop body of `with_retry` (`microservice_client.py` lines 25-39).
`attempt` is the current 0-based attempt index, `remaining` the number of
further attempts the `for attempt in range(max_retries + 1)` loop would
still grant (`max_retries - attempt`).  A success returns; a
`RequestException` with attempts remaining sleeps `backoff * 2 ^ attempt`
and retries; a `RequestException` on the last attempt re-raises; any other
exception re-raises immediately. -/
def withRetryGo {α : Type} (f : Nat → Except PyErr α) (backoff : ℚ) :
    Nat → Nat → RetryResult α
  | attempt, 0 =>
    match f attempt with
    | .ok v => { result := .ok v, attempts := attempt + 1, sleeps := [] }
    | .error e => { result := .error e, attempts := attempt + 1, sleeps := [] }
  | attempt, r + 1 =>
    match f attempt with
    | .ok v => { result := .ok v, attempts := attempt + 1, sleeps := [] }
    | .error e =>
      if e.isRequestExc then
        let rest := withRetryGo f backoff (attempt + 1) r
        { result := rest.result, attempts := rest.attempts,
          sleeps := backoff * 2 ^ attempt :: rest.sleeps }
      else
        { result := .error e, attempts := attempt + 1, sleeps := [] }

/-- The `with_retry(max_retries, backoff_factor)` decorator applied to an
operation whose behaviour on the `a`-th attempt is `f a`. -/
def withRetry {α : Type} (maxRetries : Nat) (backoff : ℚ)
    (f : Nat → Except PyErr α) : RetryResult α :=
  withRetryGo f backoff 0 maxRetries

/-- The exponential back-off schedule starting at attempt index `start`:
`backoff * 2 ^ start, backoff * 2 ^ (start+1), ...`, `k` entries. -/
def expSleepsFrom (b : ℚ) (start k : Nat) : List ℚ :=
  match k with
  | 0 => []
  | k + 1 => b * 2 ^ start :: expSleepsFrom b (start + 1) k

/-- The first `k` entries of the exponential back-off schedule. -/
def expSleeps (b : ℚ) (k : Nat) : List ℚ := expSleepsFrom b 0 k

/-- A simulated backend that raises a retryable 500-class `RequestException`
on the first `n` attempts and then succeeds with `v`. -/
def failNThenOk {α : Type} (n : Nat) (v : α) : Nat → Except PyErr α :=
  fun a => if a < n then .error (.requestExc "500 Server Error") else .ok v

/-- The STT client's language-code table (`transcribe`, lines 117-123). -/
def sttLangMapping : List (String × String) :=
  [("zh-TW", "zh"), ("zh-CN", "zh"), ("zh", "zh"), ("en-US", "en"), ("en", "en")]

/-- The TTS client's language-code table (`synthesize`, lines 188-194). -/
def ttsLangMapping : List (String × String) :=
  [("zh-TW", "zh-tw"), ("zh-CN", "zh-cn"), ("zh", "zh-tw"), ("en-US", "en"), ("en", "en")]

/-- `lang_mapping.get(language, language)`: table lookup with the input code
as fallback. -/
def mapLang (m : List (String × String)) (l : String) : String :=
  (m.lookup l).getD l

/-- The STT language normalization. -/
def sttMapLang (l : String) : String := mapLang sttLangMapping l

/-- The TTS language normalization. -/
def ttsMapLang (l : String) : String := mapLang ttsLangMapping l

/-- The message raised for an STT 202 "queued" response
(`transcribe`, line 145), naming the busy/queued state of the backend. -/
def busyMsg (m : String) : String := "STT服務繁忙，請求已加入隊列: " ++ m

/-- `STTServiceClient.transcribe` (lines 104-148), as a function of the
transport outcome of its single `POST /transcribe`.  The request side
(multipart audio plus the `sttMapLang`-normalized language) does not affect
the control flow modelled here.  The body is parsed (`response.json()`)
before the status dispatch; 200 extracts the `transcription` field, 202
raises the busy condition, any other code raises with the embedded `error`
detail.  Status codes 400-599 never reach the dispatch: `ServiceSession.request`
already converted them into a plain exception. -/
def sttTranscribe (t : TransportOutcome) : Except PyErr JsonVal :=
  match ServiceSession.request "STT" t with
  | .error e => .error e
  | .ok r =>
    match r.json with
    | .error e => .error e
    | .ok result =>
      if r.status == 200 then
        dictGetD result "transcription" (.jstr "")
      else if r.status == 202 then
        match dictGetD result "message" (.jstr "") with
        | .ok m => .error (.plainExc (busyMsg (pyStr m)))
        | .error e => .error e
      else
        match dictGetD result "error" (.jstr "") with
        | .ok d =>
          .error (.plainExc ("STT服務錯誤: " ++ toString r.status ++ " - " ++ pyStr d))
        | .error e => .error e

/-- `TTSServiceClient.synthesize` (lines 174-233), as a function of the
transport outcome of its `POST /tts`.  On 200 the raw audio bytes are
written to a fresh temp file and the path returned; the path is abstracted
to the bytes written.  On any other status an error message is built, with
the body's `error` field appended when the body parses to a dict; the
outer `except` re-raises unchanged. -/
def ttsSynthesize (t : TransportOutcome) : Except PyErr (List Nat) :=
  match ServiceSession.request "TTS" t with
  | .error e => .error e
  | .ok r =>
    if r.status == 200 then
      .ok r.content
    else
      match r.body with
      | some (.jobj fs) =>
        .error (.plainExc ("TTS服務錯誤: " ++ toString r.status ++ " - "
          ++ pyStr ((fs.lookup "error").getD (.jstr ""))))
      | _ => .error (.plainExc ("TTS服務錯誤: " ++ toString r.status))

/-- The hardcoded fallback list of `get_available_languages` (lines 243, 246). -/
def defaultLanguages : JsonVal := .jarr [.jstr "en", .jstr "zh-tw", .jstr "zh-cn"]

/-- The hardcoded fallback voice mapping of `get_available_voices`
(lines 257-261, 264-268). -/
def defaultVoices : JsonVal :=
  .jobj [("en", .jarr [.jstr "en-US-AriaNeural"]),
         ("zh-tw", .jarr [.jstr "zh-TW-HsiaoChenNeural"]),
         ("zh-cn", .jarr [.jstr "zh-CN-XiaoxiaoNeural"])]

/-- `TTSServiceClient.get_available_languages` (lines 235-246): on a 200
response return the `supported_languages` field, on a non-200 response the
hardcoded default list; any raised exception is caught and also yields the
default list. -/
def get_available_languages (t : TransportOutcome) : JsonVal :=
  match
    (match ServiceSession.request "TTS" t with
     | .error e => .error e
     | .ok r =>
       if r.status == 200 then
         match r.json with
         | .error e => .error e
         | .ok result => dictGetD result "supported_languages" (.jarr [])
       else .ok defaultLanguages : Except PyErr JsonVal) with
  | .ok v => v
  | .error _ => defaultLanguages

/-- `TTSServiceClient.get_available_voices` (lines 248-268): same shape as
`get_available_languages` with the `voices` field and the default mapping. -/
def get_available_voices (t : TransportOutcome) : JsonVal :=
  match
    (match ServiceSession.request "TTS" t with
     | .error e => .error e
     | .ok r =>
       if r.status == 200 then
         match r.json with
         | .error e => .error e
         | .ok result => dictGetD result "voices" (.jobj [])
       else .ok defaultVoices : Except PyErr JsonVal) with
  | .ok v => v
  | .error _ => defaultVoices

/-- The input JSON sent to the Ollama-compatible embeddings endpoint:
a bare string when only one text is batched, a list otherwise
(`get_embeddings`, line 322). -/
inductive EmbInput where
  | single (s : String)
  | multi (ss : List String)

/-- The payload of `POST /api/embeddings`. -/
structure EmbRequest where
  model : String
  input : EmbInput

/-- The outcome of a raw `requests.post` (no `ServiceSession`): either the
call raised a `RequestException`, or a response came back (any status; raw
`requests` does not call `raise_for_status`). -/
inductive PostOutcome where
  | raised (msg : String)
  | resp (r : HttpResp)

/-- `EmbeddingServiceClient.get_embeddings` (lines 304-348), as a function
of the backend `requests.post` behaviour.  `input` is the bare text for a
batch of one, the list for larger batches; an empty batch hits `texts[0]`
and raises `IndexError`.  A `RequestException` is converted into a plain
"service unavailable" exception; a 200 response yields the raw
`embeddings` field (default `[]`); a non-200 response raises with the
`detail` field appended when the body parses to a dict. -/
def get_embeddings (backend : EmbRequest → PostOutcome) (texts : List String)
    (model : Option String) : Except PyErr JsonVal :=
  let m := model.getD "nomic-embed"
  match
    (if texts.length > 1 then .ok (EmbInput.multi texts)
     else
       match texts with
       | [] => Except.error (PyErr.plainExc "IndexError")
       | x :: _ => .ok (EmbInput.single x)) with
  | .error e => .error e
  | .ok inp =>
    match backend { model := m, input := inp } with
    | .raised _ => .error (.plainExc "Embedding服務暫時不可用")
    | .resp r =>
      if r.status == 200 then
        match r.json with
        | .error e => .error e
        | .ok result => dictGetD result "embeddings" (.jarr [])
      else
        match r.body with
        | some (.jobj fs) =>
          .error (.plainExc ("Embedding服務錯誤: " ++ toString r.status ++ " - "
            ++ pyStr ((fs.lookup "detail").getD (.jstr ""))))
        | _ => .error (.plainExc ("Embedding服務錯誤: " ++ toString r.status))

/-- `EmbeddingServiceClient.get_embedding` (lines 350-362): the batch-of-one
call, returning `embeddings[0] if embeddings else []`. -/
def get_embedding (backend : EmbRequest → PostOutcome) (text : String)
    (model : Option String) : Except PyErr JsonVal :=
  match get_embeddings backend [text] model with
  | .error e => .error e
  | .ok embeddings =>
    if jTruthy embeddings then jIndex0 embeddings else .ok (.jarr [])

/-- `STTServiceClient.check_health` (lines 150-157): `GET /health` through
the session, returning the parsed body; every exception is caught and
converted into an `unreachable` status dict carrying the error message. -/
def stt_check_health (t : TransportOutcome) : JsonVal :=
  match
    (match ServiceSession.request "STT" t with
     | .error e => .error e
     | .ok r => r.json : Except PyErr JsonVal) with
  | .ok v => v
  | .error e => .jobj [("status", .jstr "unreachable"), ("error", .jstr e.msg)]

/-- `TTSServiceClient.check_health` (lines 270-279): like the STT check but
a non-200 response is reported as an `unhealthy` status dict. -/
def tts_check_health (t : TransportOutcome) : JsonVal :=
  match
    (match ServiceSession.request "TTS" t with
     | .error e => .error e
     | .ok r =>
       if r.status == 200 then r.json
       else .ok (.jobj [("status", .jstr "unhealthy"),
                        ("error", .jstr ("HTTP " ++ toString r.status))])
       : Except PyErr JsonVal) with
  | .ok v => v
  | .error e => .jobj [("status", .jstr "unreachable"), ("error", .jstr e.msg)]

/-- `EmbeddingServiceClient.check_health` (lines 415-424): a raw
`requests.get`; a non-200 response is `unhealthy`, any exception
(including a raised `RequestException`) is caught into `unreachable`. -/
def embedding_check_health (o : PostOutcome) : JsonVal :=
  match
    (match o with
     | .raised m => Except.error (PyErr.requestExc m)
     | .resp r =>
       if r.status == 200 then r.json
       else .ok (.jobj [("status", .jstr "unhealthy"),
                        ("error", .jstr ("HTTP " ++ toString r.status))])
       : Except PyErr JsonVal) with
  | .ok v => v
  | .error e => .jobj [("status", .jstr "unreachable"), ("error", .jstr e.msg)]

/-- `LLMServiceClient.check_health` (lines 539-581): two-tier probe.  If the
model-listing call succeeds (with `n` models) the service is healthy; if it
raises, a 1-token completion is attempted; if that also raises, the outer
handler returns an `unreachable` status dict with the error message. -/
def llm_check_health (modelsResult : Except PyErr Nat)
    (completionResult : Except PyErr String) : JsonVal :=
  match modelsResult with
  | .ok n =>
    .jobj [("status", .jstr "healthy"), ("model", .jstr "Phi-3.5-mini"),
           ("service", .jstr "Genie LLM Service"), ("available_models", .jnum n)]
  | .error _ =>
    match completionResult with
    | .ok _ =>
      .jobj [("status", .jstr "healthy"), ("model", .jstr "Phi-3.5-mini"),
             ("service", .jstr "Genie LLM Service")]
    | .error e =>
      .jobj [("status", .jstr "unreachable"), ("error", .jstr e.msg)]

/-- `health.get('status') == 'healthy'` on one client's health dict
(`app.py` lines 72, 76, 80, 84, 128-132): an `AttributeError` when the
check returned a non-dict JSON document, otherwise whether the `status`
field is the string `healthy`. -/
def statusIsHealthy (r : JsonVal) : Except PyErr Bool :=
  match dictGet r "status" with
  | .error e => .error e
  | .ok o =>
    match o with
    | some (.jstr s) => .ok (s == "healthy")
    | _ => .ok false

/-- The report returned by the detailed `/api/health` endpoint, reduced to
the fields the claims are about: the overall status string and the boolean
per-service map. -/
structure HealthReport where
  status : String
  services : List (String × Bool)
deriving DecidableEq, Repr

/-- `health_check` (`app.py` lines 65-113), as a function of the four
clients' health dicts and the two lazily-initialized singletons' presence.
The route has no exception handler: an `AttributeError` raised by one of
the `.get('status')` accesses propagates (modelled by the `Except` error
channel).  Overall status is `healthy` when all four core capabilities are
healthy, `partial` otherwise. -/
def health_check (rStt rTts rEmb rLlm : JsonVal) (ragInit crmInit : Bool) :
    Except PyErr HealthReport :=
  match statusIsHealthy rStt with
  | .error e => .error e
  | .ok s =>
    match statusIsHealthy rTts with
    | .error e => .error e
    | .ok t =>
      match statusIsHealthy rEmb with
      | .error e => .error e
      | .ok em =>
        match statusIsHealthy rLlm with
        | .error e => .error e
        | .ok l =>
          let rag := ragInit && em && l
          let core := s && t && em && l
          .ok { status := if core then "healthy" else "partial",
                services := [("stt", s), ("tts", t), ("embedding", em), ("llm", l),
                             ("rag", rag), ("crm", crmInit)] }

/-- The report returned by the POC `/api/v1/system/health` endpoint. -/
structure PocReport where
  status : String
  services : List (String × String)
  error : Option String
deriving DecidableEq, Repr

/-- The body of the `try` block of `poc_health_check` (`app.py` lines
119-141): the `.get('status')` accesses happen in Python's evaluation
order (whisper entry, then the short-circuiting `and` chain of the llm
entry, then the tts entry), and any of them can raise on a non-dict check
result.  Produces the POC report and HTTP code 200. -/
def pocAggregate (rStt rTts rEmb rLlm : JsonVal) (ragInit : Bool) :
    Except PyErr (PocReport × Nat) :=
  match statusIsHealthy rStt with
  | .error e => .error e
  | .ok s =>
    match statusIsHealthy rEmb with
    | .error e => .error e
    | .ok em =>
      match (if em then statusIsHealthy rLlm else .ok false) with
      | .error e => .error e
      | .ok l =>
        match statusIsHealthy rTts with
        | .error e => .error e
        | .ok t =>
          let whisper := if s then "ready" else "not_ready"
          let llm := if em && l && ragInit then "ready" else "not_ready"
          let tts := if t then "ready" else "not_ready"
          let allReady := whisper == "ready" && llm == "ready" && tts == "ready"
          .ok ({ status := if allReady then "healthy" else "partial",
                 services := [("whisper", whisper), ("llm", llm), ("tts", tts)],
                 error := none }, 200)

/-- `poc_health_check` (`app.py` lines 116-148): the `try` body, with the
`except` handler degrading any raised exception into an `unhealthy` report
with the error message and HTTP code 500. -/
def poc_health_check (rStt rTts rEmb rLlm : JsonVal) (ragInit : Bool) :
    PocReport × Nat :=
  match pocAggregate rStt rTts rEmb rLlm ragInit with
  | .ok x => x
  | .error e => ({ status := "unhealthy", services := [], error := some e.msg }, 500)

/-- The per-thread state of one call of `get_rag_service` (`app.py` lines
47-52).  Program counter: 0 = about to test `rag_service is None`,
1 = about to run the `MicroserviceRAGService()` constructor, 2 = about to
assign the constructed instance to the global, 3 = about to read the global
for `return rag_service`, 4 = returned. -/
structure ThreadSt where
  pc : Nat
  inst : Nat
  ret : Option Nat
deriving DecidableEq, Repr

/-- A thread that has not started executing `get_rag_service`. -/
def initThread : ThreadSt := { pc := 0, inst := 0, ret := none }

/-- The shared state plus two threads both calling `get_rag_service` for the
first time.  `ragService` is the module-global `rag_service` (instance ids
stand for constructed `MicroserviceRAGService` objects); `constructions`
counts how many times the constructor has run. -/
structure RaceState where
  ragService : Option Nat
  constructions : Nat
  t0 : ThreadSt
  t1 : ThreadSt
deriving DecidableEq, Repr

/-- Both threads at the start, the singleton not yet constructed. -/
def initRace : RaceState :=
  { ragService := none, constructions := 0, t0 := initThread, t1 := initThread }

/-- One atomic step of one thread executing `get_rag_service`: the `None`
test, the constructor call, the global assignment and the returning read
are separate steps, because the constructor performs I/O and the
interpreter can switch threads between any two of them (there is no lock
in the source). -/
def stepThread (g : Option Nat) (cnt : Nat) (t : ThreadSt) :
    Option Nat × Nat × ThreadSt :=
  match t.pc with
  | 0 => if g = none then (g, cnt, { t with pc := 1 })
         else (g, cnt, { t with pc := 3 })
  | 1 => (g, cnt + 1, { t with pc := 2, inst := cnt })
  | 2 => (some t.inst, cnt, { t with pc := 3 })
  | 3 => (g, cnt, { t with pc := 4, ret := g })
  | _ => (g, cnt, t)

/-- Run one step of the scheduled thread (`false` = thread 0, `true` =
thread 1). -/
def stepRace (s : RaceState) (tid : Bool) : RaceState :=
  if tid then
    match stepThread s.ragService s.constructions s.t1 with
    | (g, c, t) => { s with ragService := g, constructions := c, t1 := t }
  else
    match stepThread s.ragService s.constructions s.t0 with
    | (g, c, t) => { s with ragService := g, constructions := c, t0 := t }

/-- Run a whole schedule (a list of thread choices). -/
def runSched (sched : List Bool) (s : RaceState) : RaceState :=
  sched.foldl stepRace s

/-- Thread 0 runs its call to completion, then thread 1 runs. -/
def seqSched01 : List Bool := [false, false, false, false, true, true, true, true]

/-- Thread 1 runs its call to completion, then thread 0 runs. -/
def seqSched10 : List Bool := [true, true, true, true, false, false, false, false]

/-- Both threads pass the `rag_service is None` test before either has
assigned the global: both take the construction branch. -/
def raceSched : List Bool := [false, true, false, false, false, true, true, true]

/-- A health dict counts as a degraded failure report when its `status`
field is `unreachable` or `unhealthy` and it carries an `error` field. -/
def degradedReport (j : JsonVal) : Prop :=
  (jLookup j "status" = some (.jstr "unreachable") ∨
   jLookup j "status" = some (.jstr "unhealthy")) ∧
  (jLookup j "error").isSome = true

/-- A transport-level failure: a timeout, a connection error, or a response
whose status `raise_for_status()` rejects. -/
def isTransportFailure : TransportOutcome → Bool
  | .timeout => true
  | .connError => true
  | .success r => decide (400 ≤ r.status ∧ r.status < 600)

/-- A health dict reporting `healthy`, as the STT backend would return it. -/
def healthyDict : JsonVal := .jobj [("status", .jstr "healthy")]

/-- A degraded health dict, as `check_health` returns on failure. -/
def unreachableDict : JsonVal :=
  .jobj [("status", .jstr "unreachable"), ("error", .jstr "connection refused")]

/-- A concrete embedding backend answering every request with one
two-component vector. -/
def embOkBackend : EmbRequest → PostOutcome := fun _ =>
  .resp { status := 200,
          body := some (.jobj [("embeddings", .jarr [.jarr [.jnum 1, .jnum 2]])]),
          content := [] }

/-- A concrete queued (202) STT response, used by witnesses. -/
def queuedResp : HttpResp :=
  { status := 202, body := some (.jobj [("message", .jstr "queued")]), content := [] }

/-- A concrete 503 response with an unparseable body, used by witnesses. -/
def resp503 : HttpResp := { status := 503, body := none, content := [] }

/-- A concrete 200 response of the TTS `GET /languages` endpoint, used by
witnesses. -/
def langsResp : HttpResp :=
  { status := 200,
    body := some (.jobj [("supported_languages", .jarr [.jstr "en"])]),
    content := [] }

/-! ### Behaviour of the retry decorator -/

theorem withRetryGo_ok {α : Type} (f : Nat → Except PyErr α) (b : ℚ) (a rem : Nat)
    (v : α) (h : f a = .ok v) :
    withRetryGo f b a rem = { result := .ok v, attempts := a + 1, sleeps := [] } := by
  cases rem <;> simp [withRetryGo, h]

theorem withRetryGo_nonrequest {α : Type} (f : Nat → Except PyErr α) (b : ℚ)
    (a rem : Nat) (e : PyErr) (hr : e.isRequestExc = false) (h : f a = .error e) :
    withRetryGo f b a rem = { result := .error e, attempts := a + 1, sleeps := [] } := by
  cases rem <;> simp [withRetryGo, h, hr]

theorem withRetryGo_step {α : Type} (f : Nat → Except PyErr α) (b : ℚ) (a r : Nat)
    (e : PyErr) (hr : e.isRequestExc = true) (h : f a = .error e) :
    withRetryGo f b a (r + 1) =
      { result := (withRetryGo f b (a + 1) r).result,
        attempts := (withRetryGo f b (a + 1) r).attempts,
        sleeps := b * 2 ^ a :: (withRetryGo f b (a + 1) r).sleeps } := by
  simp [withRetryGo, h, hr]

theorem withRetryGo_exhaust {α : Type} (f : Nat → Except PyErr α) (b : ℚ) (a : Nat)
    (e : PyErr) (h : f a = .error e) :
    withRetryGo f b a 0 = { result := .error e, attempts := a + 1, sleeps := [] } := by
  simp [withRetryGo, h]

theorem withRetry_immediate_of_nonrequest {α : Type} (mr : Nat) (b : ℚ)
    (f : Nat → Except PyErr α) (e : PyErr) (h : f 0 = .error e)
    (hr : e.isRequestExc = false) :
    withRetry mr b f = { result := .error e, attempts := 1, sleeps := [] } :=
  withRetryGo_nonrequest f b 0 mr e hr h

theorem withRetryGo_failN_ok {α : Type} (n : Nat) (v : α) (b : ℚ) :
    ∀ k a rem, a + k = n → k ≤ rem →
      withRetryGo (failNThenOk n v) b a rem =
        { result := .ok v, attempts := n + 1, sleeps := expSleepsFrom b a k } := by
  intro k
  induction k with
  | zero =>
    intro a rem hk _
    have hf : failNThenOk n v a = .ok v := by
      simp only [failNThenOk, if_neg (by omega : ¬ a < n)]
    rw [withRetryGo_ok _ _ _ _ _ hf]
    simp [expSleepsFrom]
    omega
  | succ k ih =>
    intro a rem hk hrem
    have hf : failNThenOk n v a = .error (.requestExc "500 Server Error") := by
      simp only [failNThenOk, if_pos (by omega : a < n)]
    obtain ⟨r, rfl⟩ : ∃ r, rem = r + 1 := ⟨rem - 1, by omega⟩
    rw [withRetryGo_step _ _ _ _ (.requestExc "500 Server Error") rfl hf,
      ih (a + 1) r (by omega) (by omega)]
    simp [expSleepsFrom]

theorem withRetryGo_all_fail {α : Type} (f : Nat → Except PyErr α) (b : ℚ) :
    ∀ rem a, (∀ i, i ≤ a + rem → ∃ m, f i = .error (.requestExc m)) →
      withRetryGo f b a rem =
        { result := f (a + rem), attempts := a + rem + 1,
          sleeps := expSleepsFrom b a rem } := by
  intro rem
  induction rem with
  | zero =>
    intro a hall
    obtain ⟨m, hm⟩ := hall a (by omega)
    rw [withRetryGo_exhaust _ _ _ _ hm]
    simp [expSleepsFrom, hm]
  | succ r ih =>
    intro a hall
    obtain ⟨m, hm⟩ := hall a (by omega)
    rw [withRetryGo_step _ _ _ _ (.requestExc m) rfl hm,
      ih (a + 1) (fun i hi => hall i (by omega))]
    have harith : a + 1 + r = a + (r + 1) := by omega
    simp [expSleepsFrom, harith]

theorem expSleepsFrom_eq_map (b : ℚ) :
    ∀ k s, expSleepsFrom b s k = (List.range k).map (fun a => b * 2 ^ (s + a)) := by
  intro k
  induction k with
  | zero => intro s; simp [expSleepsFrom]
  | succ k ih =>
    intro s
    rw [List.range_succ_eq_map, List.map_cons, List.map_map]
    show b * 2 ^ s :: expSleepsFrom b (s + 1) k = _
    rw [ih (s + 1)]
    refine congrArg₂ _ (by rw [Nat.add_zero]) ?_
    apply List.map_congr_left
    intro a _
    show b * 2 ^ (s + 1 + a) = b * 2 ^ (s + (a + 1))
    have harith : s + 1 + a = s + (a + 1) := by omega
    rw [harith]

theorem expSleeps_eq_map (b : ℚ) (k : Nat) :
    expSleeps b k = (List.range k).map (fun a => b * 2 ^ a) := by
  rw [expSleeps, expSleepsFrom_eq_map]
  simp

/-- C2: the `with_retry` decorator sleeps `backoff_factor * 2 ^ attempt`
after each failed attempt and retries.  Against a backend failing `n` times
and then succeeding, a call with `max_retries ≥ n` succeeds (after `n + 1`
attempts, having slept the exponential schedule for the `n` failures);
with `max_retries < n` it makes exactly `max_retries + 1` attempts and
raises.  When every attempt fails with a network-class error, the exception
finally raised is the one of the last attempt.  A non-network exception
propagates immediately: one attempt, no sleep. -/
theorem retry_decorator_spec {α : Type} (n mr : Nat) (b : ℚ) (v : α) :
    (n ≤ mr → withRetry mr b (failNThenOk n v) =
      { result := .ok v, attempts := n + 1, sleeps := expSleeps b n }) ∧
    (mr < n → withRetry mr b (failNThenOk n v) =
      { result := .error (.requestExc "500 Server Error"), attempts := mr + 1,
        sleeps := expSleeps b mr }) ∧
    (∀ f : Nat → Except PyErr α, (∀ i, ∃ m, f i = .error (.requestExc m)) →
      withRetry mr b f =
        { result := f mr, attempts := mr + 1, sleeps := expSleeps b mr }) ∧
    (∀ (f : Nat → Except PyErr α) (e : PyErr), f 0 = .error e →
      e.isRequestExc = false →
      withRetry mr b f = { result := .error e, attempts := 1, sleeps := [] }) ∧
    (∀ k, expSleeps b k = (List.range k).map (fun a => b * 2 ^ a)) := by
  refine ⟨?_, ?_, ?_, ?_, expSleeps_eq_map b⟩
  · intro hle
    exact withRetryGo_failN_ok n v b n 0 mr (by omega) hle
  · intro hlt
    have h := withRetryGo_all_fail (failNThenOk n v) b mr 0
      (fun i hi => ⟨"500 Server Error", by
        simp only [failNThenOk, if_pos (by omega : i < n)]⟩)
    rw [withRetry, h]
    have hf : failNThenOk n v (0 + mr) = .error (.requestExc "500 Server Error") := by
      simp only [failNThenOk, if_pos (by omega : 0 + mr < n)]
    rw [hf]
    simp [expSleeps]
  · intro f hall
    have h := withRetryGo_all_fail f b mr 0 (fun i _ => hall i)
    rw [withRetry, h]
    simp [expSleeps]
  · intro f e h he
    exact withRetry_immediate_of_nonrequest mr b f e h he

/-- Witness for C2: backend failing twice then succeeding, under
`max_retries = 3` (succeeds, two back-off sleeps), `max_retries = 1`
(raises after exactly 2 attempts, one sleep), and a non-network error
(propagates at once). -/
theorem retry_decorator_spec_witness :
    withRetry 3 (3/10) (failNThenOk 2 (42 : Nat)) =
      { result := .ok 42, attempts := 3, sleeps := [3/10, 3/5] } ∧
    withRetry 1 (3/10) (failNThenOk 2 (42 : Nat)) =
      { result := .error (.requestExc "500 Server Error"), attempts := 2,
        sleeps := [3/10] } ∧
    withRetry 3 (3/10) (fun _ => (.error (.plainExc "ValueError") : Except PyErr Nat)) =
      { result := .error (.plainExc "ValueError"), attempts := 1, sleeps := [] } := by
  refine ⟨?_, ?_, ?_⟩
  · rw [(retry_decorator_spec 2 3 (3/10) (42 : Nat)).1 (by omega)]
    norm_num [expSleeps, expSleepsFrom]
  · rw [(retry_decorator_spec 2 1 (3/10) (42 : Nat)).2.1 (by omega)]
    norm_num [expSleeps, expSleepsFrom]
  · exact (retry_decorator_spec 2 3 (3/10) (42 : Nat)).2.2.2.1 _ _ rfl rfl

/-! ### Transport failures through the session -/

theorem request_error_plain (serviceName : String) (t : TransportOutcome) (e : PyErr)
    (h : ServiceSession.request serviceName t = .error e) : e.isRequestExc = false := by
  cases t with
  | timeout =>
    simp only [ServiceSession.request, Except.error.injEq] at h
    rw [← h]; rfl
  | connError =>
    simp only [ServiceSession.request, Except.error.injEq] at h
    rw [← h]; rfl
  | success r =>
    simp only [ServiceSession.request] at h
    split at h
    · simp only [Except.error.injEq] at h
      rw [← h]; rfl
    · exact Except.noConfusion h

theorem request_transport_failure (serviceName : String) (t : TransportOutcome)
    (h : isTransportFailure t = true) :
    ∃ e, ServiceSession.request serviceName t = .error e ∧ e.isRequestExc = false := by
  cases t with
  | timeout => exact ⟨_, rfl, rfl⟩
  | connError => exact ⟨_, rfl, rfl⟩
  | success r =>
    have hc : 400 ≤ r.status ∧ r.status < 600 := by
      simpa [isTransportFailure] using h
    exact ⟨.plainExc (serviceName ++ "服務HTTP錯誤: " ++ toString r.status),
      by simp [ServiceSession.request, hc], rfl⟩

theorem sttTranscribe_transport_failure (t : TransportOutcome)
    (h : isTransportFailure t = true) :
    ∃ e, sttTranscribe t = .error e ∧ e.isRequestExc = false := by
  obtain ⟨e, he, hp⟩ := request_transport_failure "STT" t h
  exact ⟨e, by simp [sttTranscribe, he], hp⟩

theorem ttsSynthesize_transport_failure (t : TransportOutcome)
    (h : isTransportFailure t = true) :
    ∃ e, ttsSynthesize t = .error e ∧ e.isRequestExc = false := by
  obtain ⟨e, he, hp⟩ := request_transport_failure "TTS" t h
  exact ⟨e, by simp [ttsSynthesize, he], hp⟩

/-- C4: every failure `ServiceSession.request` raises (timeout, connection
error, HTTP error status) is a plain `Exception`, never a
`requests.RequestException`; consequently, when the first attempt of the
retry-wrapped STT `transcribe` or TTS `synthesize` hits a transport
failure, the wrapped call fails after exactly one attempt with no back-off
sleep — the decorator's retry branch is unreachable for those errors. -/
theorem session_failures_not_retried (serviceName : String) (t : TransportOutcome)
    (ts ts2 : Nat → TransportOutcome) (mr : Nat) (b : ℚ) :
    (∀ e, ServiceSession.request serviceName t = .error e → e.isRequestExc = false) ∧
    (isTransportFailure (ts 0) = true →
      ∃ e, sttTranscribe (ts 0) = .error e ∧ e.isRequestExc = false ∧
        withRetry mr b (fun a => sttTranscribe (ts a)) =
          { result := .error e, attempts := 1, sleeps := [] }) ∧
    (isTransportFailure (ts2 0) = true →
      ∃ e, ttsSynthesize (ts2 0) = .error e ∧ e.isRequestExc = false ∧
        withRetry mr b (fun a => ttsSynthesize (ts2 a)) =
          { result := .error e, attempts := 1, sleeps := [] }) := by
  refine ⟨fun e h => request_error_plain serviceName t e h, ?_, ?_⟩
  · intro h
    obtain ⟨e, he, hp⟩ := sttTranscribe_transport_failure (ts 0) h
    exact ⟨e, he, hp, withRetry_immediate_of_nonrequest mr b _ e he hp⟩
  · intro h
    obtain ⟨e, he, hp⟩ := ttsSynthesize_transport_failure (ts2 0) h
    exact ⟨e, he, hp, withRetry_immediate_of_nonrequest mr b _ e he hp⟩

/-- Witness for C4: a 503 response to the first STT attempt is raised as a
plain exception after exactly one attempt, with no sleep. -/
theorem session_failures_not_retried_witness :
    ∃ e, sttTranscribe (.success resp503) = .error e ∧ e.isRequestExc = false ∧
      withRetry 2 (1/2) (fun _ => sttTranscribe (.success resp503)) =
        { result := .error e, attempts := 1, sleeps := [] } :=
  (session_failures_not_retried "STT" (.success resp503)
    (fun _ => .success resp503) (fun _ => .timeout) 2 (1/2)).2.1 (by decide)

/-- C3: a 202 response from the STT backend makes `transcribe` raise the
busy condition (a plain exception whose message names the busy/queued
state) immediately: the decorator performs exactly one attempt, zero
retries and zero back-off sleeps. -/
theorem stt_202_busy (mr : Nat) (b : ℚ) (fs : List (String × JsonVal))
    (c : List Nat) (ts : Nat → TransportOutcome)
    (h0 : ts 0 = .success { status := 202, body := some (.jobj fs), content := c }) :
    sttTranscribe (ts 0) =
      .error (.plainExc (busyMsg (pyStr ((fs.lookup "message").getD (.jstr ""))))) ∧
    withRetry mr b (fun a => sttTranscribe (ts a)) =
      { result := .error (.plainExc (busyMsg (pyStr ((fs.lookup "message").getD (.jstr ""))))),
        attempts := 1, sleeps := [] } := by
  have h1 : sttTranscribe (ts 0) =
      .error (.plainExc (busyMsg (pyStr ((fs.lookup "message").getD (.jstr ""))))) := by
    rw [h0]
    simp [sttTranscribe, ServiceSession.request, HttpResp.json, dictGetD, dictGet]
  exact ⟨h1, withRetry_immediate_of_nonrequest mr b _ _ h1 rfl⟩

/-- Witness for C3 at a concrete queued response. -/
theorem stt_202_busy_witness :
    sttTranscribe (.success queuedResp) = .error (.plainExc (busyMsg "queued")) ∧
    withRetry 2 (1/2) (fun _ => sttTranscribe (.success queuedResp)) =
      { result := .error (.plainExc (busyMsg "queued")), attempts := 1, sleeps := [] } :=
  stt_202_busy 2 (1/2) [("message", .jstr "queued")] []
    (fun _ => .success queuedResp) rfl

/-! ### Language-code normalization -/

theorem lookup_mem : ∀ {m : List (String × String)} {l v : String},
    m.lookup l = some v → (l, v) ∈ m := by
  intro m
  induction m with
  | nil => intro l v h; simp [List.lookup] at h
  | cons p rest ih =>
    intro l v h
    obtain ⟨k, w⟩ := p
    rw [List.lookup] at h
    cases hbeq : l == k with
    | true =>
      rw [hbeq] at h
      simp only [Option.some.injEq] at h
      have hk : l = k := eq_of_beq hbeq
      subst hk
      subst h
      exact List.mem_cons_self _ _
    | false =>
      rw [hbeq] at h
      right
      exact ih h

theorem lookup_eq_none_of_not_mem_keys :
    ∀ {m : List (String × String)} {l : String},
      l ∉ m.map Prod.fst → m.lookup l = none := by
  intro m
  induction m with
  | nil => intro l _; rfl
  | cons p rest ih =>
    intro l h
    rw [List.map_cons, List.mem_cons, not_or] at h
    rw [List.lookup]
    have hbeq : (l == p.1) = false := beq_eq_false_iff_ne.mpr h.1
    rw [hbeq]
    exact ih h.2

theorem mapLang_idem_of (m : List (String × String))
    (hvals : ∀ p ∈ m, mapLang m p.2 = p.2) :
    ∀ l, mapLang m (mapLang m l) = mapLang m l := by
  intro l
  cases h : m.lookup l with
  | none =>
    have hl : mapLang m l = l := by rw [mapLang, h]; rfl
    rw [hl, hl]
  | some v =>
    have hl : mapLang m l = v := by rw [mapLang, h]; rfl
    rw [hl]
    exact hvals (l, v) (lookup_mem h)

/-- C5: the STT and TTS language mappings are total (defined on every input
string) and idempotent; already-canonical codes map to themselves;
unrecognized codes pass through unchanged; and the TTS mapping sends the
bare `zh` code to the traditional-Chinese variant `zh-tw`. -/
theorem lang_mapping_spec (l : String) :
    sttMapLang "zh" = "zh" ∧ sttMapLang "en" = "en" ∧
    ttsMapLang "zh-tw" = "zh-tw" ∧ ttsMapLang "zh-cn" = "zh-cn" ∧
    ttsMapLang "en" = "en" ∧
    (l ∉ sttLangMapping.map Prod.fst → sttMapLang l = l) ∧
    (l ∉ ttsLangMapping.map Prod.fst → ttsMapLang l = l) ∧
    sttMapLang (sttMapLang l) = sttMapLang l ∧
    ttsMapLang (ttsMapLang l) = ttsMapLang l ∧
    ttsMapLang "zh" = "zh-tw" := by
  refine ⟨by decide, by decide, by decide, by decide, by decide, ?_, ?_, ?_, ?_, by decide⟩
  · intro h
    rw [sttMapLang, mapLang, lookup_eq_none_of_not_mem_keys h]
    rfl
  · intro h
    rw [ttsMapLang, mapLang, lookup_eq_none_of_not_mem_keys h]
    rfl
  · exact mapLang_idem_of sttLangMapping (by decide) l
  · exact mapLang_idem_of ttsLangMapping (by decide) l

/-- Witness for C5 at the unrecognized code `fr` and the canonical codes. -/
theorem lang_mapping_spec_witness :
    sttMapLang "fr" = "fr" ∧ ttsMapLang "fr" = "fr" ∧
    sttMapLang (sttMapLang "zh-TW") = sttMapLang "zh-TW" ∧
    ttsMapLang (ttsMapLang "zh") = ttsMapLang "zh" ∧
    ttsMapLang "zh" = "zh-tw" := by
  have h := lang_mapping_spec "fr"
  refine ⟨h.2.2.2.2.2.1 (by decide), h.2.2.2.2.2.2.1 (by decide), ?_, ?_, h.2.2.2.2.2.2.2.2.2⟩
  · exact (lang_mapping_spec "zh-TW").2.2.2.2.2.2.2.1
  · exact (lang_mapping_spec "zh").2.2.2.2.2.2.2.2.1

/-! ### Health aggregation -/

/-- C1: with four capability health results whose `status` fields classify
as healthy-or-not booleans, the detailed health endpoint reports exactly
`healthy` when all four of stt, tts, embedding and llm are healthy, and
exactly `partial` otherwise (in particular for any 3-of-4 subset). -/
theorem health_overall_status (rStt rTts rEmb rLlm : JsonVal)
    (bS bT bE bL ragI crmI : Bool)
    (hS : statusIsHealthy rStt = .ok bS) (hT : statusIsHealthy rTts = .ok bT)
    (hE : statusIsHealthy rEmb = .ok bE) (hL : statusIsHealthy rLlm = .ok bL) :
    health_check rStt rTts rEmb rLlm ragI crmI =
      .ok { status := if bS && bT && bE && bL then "healthy" else "partial",
            services := [("stt", bS), ("tts", bT), ("embedding", bE), ("llm", bL),
                         ("rag", ragI && bE && bL), ("crm", crmI)] } ∧
    ((if bS && bT && bE && bL then "healthy" else "partial") = "healthy" ↔
      bS = true ∧ bT = true ∧ bE = true ∧ bL = true) ∧
    ((if bS && bT && bE && bL then "healthy" else "partial") = "partial" ↔
      ¬(bS = true ∧ bT = true ∧ bE = true ∧ bL = true)) := by
  refine ⟨?_, ?_, ?_⟩
  · rw [health_check, hS, hT, hE, hL]
  · cases bS <;> cases bT <;> cases bE <;> cases bL <;> simp
  · cases bS <;> cases bT <;> cases bE <;> cases bL <;> simp

/-- Witness for C1: 3 of 4 healthy gives exactly `partial`, 4 of 4 gives
exactly `healthy`. -/
theorem health_overall_status_witness :
    health_check healthyDict healthyDict healthyDict unreachableDict true true =
      .ok { status := "partial",
            services := [("stt", true), ("tts", true), ("embedding", true),
                         ("llm", false), ("rag", false), ("crm", true)] } ∧
    health_check healthyDict healthyDict healthyDict healthyDict false true =
      .ok { status := "healthy",
            services := [("stt", true), ("tts", true), ("embedding", true),
                         ("llm", true), ("rag", false), ("crm", true)] } := by
  constructor
  · have h := (health_overall_status healthyDict healthyDict healthyDict unreachableDict
      true true true false true true rfl rfl rfl rfl).1
    simpa using h
  · have h := (health_overall_status healthyDict healthyDict healthyDict healthyDict
      true true true true false true rfl rfl rfl rfl).1
    simpa using h

theorem pocAggregate_ok_shape (r1 r2 r3 r4 : JsonVal) (ragI : Bool)
    (x : PocReport × Nat) (h : pocAggregate r1 r2 r3 r4 ragI = .ok x) :
    (x.1.status = "healthy" ∨ x.1.status = "partial") ∧
    x.1.error = none ∧ x.2 = 200 := by
  rw [pocAggregate] at h
  split at h
  · exact Except.noConfusion h
  · split at h
    · exact Except.noConfusion h
    · split at h
      · exact Except.noConfusion h
      · split at h
        · exact Except.noConfusion h
        · injection h with h
          subst h
          exact ⟨ite_eq_or_eq _ _ _, rfl, rfl⟩

/-- C6 counterexample: the detailed `/api/health` endpoint has no exception
handler; when the STT health check returns a non-dict JSON document, the
`.get('status')` access raises and the exception propagates out of the
endpoint instead of producing an `unhealthy` report. -/
theorem health_exception_propagates_counterexample :
    health_check (.jarr []) healthyDict healthyDict healthyDict true true =
      .error (.plainExc "AttributeError: get") := rfl

/-- C6 (amended): in the POC health endpoint, any exception raised while
aggregating is caught and degraded into a well-formed report with status
`unhealthy`, an error field and HTTP code 500, and the endpoint's status is
always one of `healthy`, `partial`, `unhealthy`; the detailed endpoint
(see the counterexample) has no such handler. -/
theorem poc_health_degrades (r1 r2 r3 r4 : JsonVal) (ragI : Bool) :
    (∀ e, pocAggregate r1 r2 r3 r4 ragI = .error e →
      poc_health_check r1 r2 r3 r4 ragI =
        ({ status := "unhealthy", services := [], error := some e.msg }, 500)) ∧
    (∀ x, pocAggregate r1 r2 r3 r4 ragI = .ok x →
      poc_health_check r1 r2 r3 r4 ragI = x) ∧
    ((poc_health_check r1 r2 r3 r4 ragI).1.status = "healthy" ∨
     (poc_health_check r1 r2 r3 r4 ragI).1.status = "partial" ∨
     ((poc_health_check r1 r2 r3 r4 ragI).1.status = "unhealthy" ∧
      ((poc_health_check r1 r2 r3 r4 ragI).1.error).isSome = true)) := by
  refine ⟨?_, ?_, ?_⟩
  · intro e he; rw [poc_health_check, he]
  · intro x hx; rw [poc_health_check, hx]
  · cases hagg : pocAggregate r1 r2 r3 r4 ragI with
    | error e =>
      right; right
      rw [poc_health_check, hagg]
      exact ⟨rfl, rfl⟩
    | ok x =>
      have hshape := pocAggregate_ok_shape r1 r2 r3 r4 ragI x hagg
      rw [poc_health_check, hagg]
      rcases hshape.1 with h | h
      · left; exact h
      · right; left; exact h

/-- Witness for C6: a non-dict STT health result makes the POC endpoint
return an `unhealthy` report with the error message and HTTP 500. -/
theorem poc_health_degrades_witness :
    poc_health_check (.jarr []) healthyDict healthyDict healthyDict true =
      ({ status := "unhealthy", services := [], error := some "AttributeError: get" }, 500) :=
  (poc_health_degrades (.jarr []) healthyDict healthyDict healthyDict true).1
    (.plainExc "AttributeError: get") rfl

/-! ### Embedding client -/

/-- C7: the single-text embedding operation is the batch-of-one of the
batch operation.  Whenever the batch call on `[t]` returns a non-empty
vector list, `get_embedding t` returns exactly its first element; an error
of the batch call propagates identically; and both operations consult the
backend only at the single-input request, so identical backend responses
give identical results. -/
theorem embedding_single_is_batch_of_one (backend : EmbRequest → PostOutcome)
    (t : String) (model : Option String) :
    (∀ v rest, get_embeddings backend [t] model = .ok (.jarr (v :: rest)) →
      get_embedding backend t model = .ok v) ∧
    (∀ e, get_embeddings backend [t] model = .error e →
      get_embedding backend t model = .error e) ∧
    (∀ backend2 : EmbRequest → PostOutcome,
      backend2 { model := model.getD "nomic-embed", input := .single t } =
        backend { model := model.getD "nomic-embed", input := .single t } →
      get_embedding backend2 t model = get_embedding backend t model) := by
  refine ⟨?_, ?_, ?_⟩
  · intro v rest h
    rw [get_embedding, h]
    simp [jTruthy, jIndex0]
  · intro e h
    rw [get_embedding, h]
  · intro backend2 hsame
    rw [get_embedding, get_embedding, get_embeddings, get_embeddings]
    simp only [List.length_singleton, gt_iff_lt, lt_irrefl, if_false]
    rw [hsame]

/-- Witness for C7: a backend answering with one vector `[1, 2]`. -/
theorem embedding_single_is_batch_of_one_witness :
    get_embedding embOkBackend "hello" none = .ok (.jarr [.jnum 1, .jnum 2]) :=
  (embedding_single_is_batch_of_one embOkBackend "hello" none).1
    (.jarr [.jnum 1, .jnum 2]) [] rfl

/-! ### TTS language and voice lists -/

/-- C8: `get_available_languages` and `get_available_voices` return
normally for every backend outcome: a 200 response with a dict body yields
the backend-provided field (with the code's own field default), and every
failure — timeout, connection error, any non-200 status, an unparseable
body, or a non-dict body — yields the hardcoded default list/mapping. -/
theorem tts_lists_degrade (st : Nat) (b : Option JsonVal) (c : List Nat)
    (fs : List (String × JsonVal)) (xs : List JsonVal) :
    get_available_languages .timeout = defaultLanguages ∧
    get_available_languages .connError = defaultLanguages ∧
    (st ≠ 200 → get_available_languages
      (.success { status := st, body := b, content := c }) = defaultLanguages) ∧
    (st < 400 → get_available_languages
      (.success { status := st, body := none, content := c }) = defaultLanguages) ∧
    get_available_languages
      (.success { status := 200, body := some (.jarr xs), content := c }) =
        defaultLanguages ∧
    get_available_languages
      (.success { status := 200, body := some (.jobj fs), content := c }) =
        ((fs.lookup "supported_languages").getD (.jarr [])) ∧
    get_available_voices .timeout = defaultVoices ∧
    get_available_voices .connError = defaultVoices ∧
    (st ≠ 200 → get_available_voices
      (.success { status := st, body := b, content := c }) = defaultVoices) ∧
    (st < 400 → get_available_voices
      (.success { status := st, body := none, content := c }) = defaultVoices) ∧
    get_available_voices
      (.success { status := 200, body := some (.jarr xs), content := c }) =
        defaultVoices ∧
    get_available_voices
      (.success { status := 200, body := some (.jobj fs), content := c }) =
        ((fs.lookup "voices").getD (.jobj [])) := by
  refine ⟨rfl, rfl, ?_, ?_, by simp [get_available_languages, ServiceSession.request,
      HttpResp.json, dictGetD, dictGet], by simp [get_available_languages,
      ServiceSession.request, HttpResp.json, dictGetD, dictGet],
    rfl, rfl, ?_, ?_, by simp [get_available_voices, ServiceSession.request,
      HttpResp.json, dictGetD, dictGet], by simp [get_available_voices,
      ServiceSession.request, HttpResp.json, dictGetD, dictGet]⟩
  · intro hne
    rw [get_available_languages, ServiceSession.request]
    by_cases hc : 400 ≤ st ∧ st < 600
    · rw [if_pos hc]
    · rw [if_neg hc]
      have : (st == 200) = false := beq_eq_false_iff_ne.mpr hne
      simp [this]
  · intro hlt
    rw [get_available_languages, ServiceSession.request]
    rw [if_neg (by omega : ¬(400 ≤ st ∧ st < 600))]
    by_cases h200 : st = 200
    · subst h200; simp [HttpResp.json]
    · have : (st == 200) = false := beq_eq_false_iff_ne.mpr h200
      simp [this]
  · intro hne
    rw [get_available_voices, ServiceSession.request]
    by_cases hc : 400 ≤ st ∧ st < 600
    · rw [if_pos hc]
    · rw [if_neg hc]
      have : (st == 200) = false := beq_eq_false_iff_ne.mpr hne
      simp [this]
  · intro hlt
    rw [get_available_voices, ServiceSession.request]
    rw [if_neg (by omega : ¬(400 ≤ st ∧ st < 600))]
    by_cases h200 : st = 200
    · subst h200; simp [HttpResp.json]
    · have : (st == 200) = false := beq_eq_false_iff_ne.mpr h200
      simp [this]

/-- Witness for C8: a 503 backend falls back to the defaults, a healthy 200
response is passed through. -/
theorem tts_lists_degrade_witness :
    get_available_languages (.success resp503) = defaultLanguages ∧
    get_available_voices (.success resp503) = defaultVoices ∧
    get_available_languages (.success langsResp) = .jarr [.jstr "en"] := by
  refine ⟨?_, ?_, ?_⟩
  · exact (tts_lists_degrade 503 none [] [] []).2.2.1 (by omega)
  · exact (tts_lists_degrade 503 none [] [] []).2.2.2.2.2.2.2.2.1 (by omega)
  · exact (tts_lists_degrade 200 none [] [("supported_languages", .jarr [.jstr "en"])]
      []).2.2.2.2.2.1

/-! ### Health checks never raise -/

theorem degraded_unreachable (m : String) :
    degradedReport (.jobj [("status", .jstr "unreachable"), ("error", .jstr m)]) :=
  ⟨Or.inl rfl, rfl⟩

theorem degraded_unhealthy (m : String) :
    degradedReport (.jobj [("status", .jstr "unhealthy"), ("error", .jstr m)]) :=
  ⟨Or.inr rfl, rfl⟩

/-- C9: every client's `check_health` is a total function of the backend's
behaviour — raising is impossible by construction (each handler catches all
exceptions) — and on every failure path the returned dict carries a
degraded status (`unreachable` or `unhealthy`) together with an `error`
field; on a successful probe the LLM check reports `healthy`. -/
theorem check_health_always_degraded (st : Nat) (b : Option JsonVal) (c : List Nat)
    (m : String) (e1 e2 : PyErr) (n : Nat) (s : String) :
    degradedReport (stt_check_health .timeout) ∧
    degradedReport (stt_check_health .connError) ∧
    (400 ≤ st → st < 600 →
      degradedReport (stt_check_health (.success { status := st, body := b, content := c }))) ∧
    degradedReport (stt_check_health (.success { status := st, body := none, content := c })) ∧
    degradedReport (tts_check_health .timeout) ∧
    degradedReport (tts_check_health .connError) ∧
    (st ≠ 200 →
      degradedReport (tts_check_health (.success { status := st, body := b, content := c }))) ∧
    degradedReport (tts_check_health (.success { status := st, body := none, content := c })) ∧
    degradedReport (embedding_check_health (.raised m)) ∧
    (st ≠ 200 →
      degradedReport (embedding_check_health (.resp { status := st, body := b, content := c }))) ∧
    degradedReport (embedding_check_health (.resp { status := st, body := none, content := c })) ∧
    degradedReport (llm_check_health (.error e1) (.error e2)) ∧
    jLookup (llm_check_health (.ok n) (.error e2)) "status" = some (.jstr "healthy") ∧
    jLookup (llm_check_health (.error e1) (.ok s)) "status" = some (.jstr "healthy") := by
  refine ⟨degraded_unreachable _, degraded_unreachable _, ?_, ?_,
    degraded_unreachable _, degraded_unreachable _, ?_, ?_,
    degraded_unreachable _, ?_, ?_, degraded_unreachable _, rfl, rfl⟩
  · intro h4 h6
    rw [stt_check_health, ServiceSession.request, if_pos ⟨h4, h6⟩]
    exact degraded_unreachable _
  · rw [stt_check_health, ServiceSession.request]
    by_cases hc : 400 ≤ st ∧ st < 600
    · rw [if_pos hc]; exact degraded_unreachable _
    · rw [if_neg hc]
      show degradedReport
        (match (HttpResp.json { status := st, body := none, content := c }) with
         | .ok v => v
         | .error e => .jobj [("status", .jstr "unreachable"), ("error", .jstr e.msg)])
      exact degraded_unreachable _
  · intro hne
    rw [tts_check_health, ServiceSession.request]
    by_cases hc : 400 ≤ st ∧ st < 600
    · rw [if_pos hc]; exact degraded_unreachable _
    · rw [if_neg hc]
      have hbeq : (st == 200) = false := beq_eq_false_iff_ne.mpr hne
      simp only [hbeq, Bool.false_eq_true, if_false]
      exact degraded_unhealthy _
  · rw [tts_check_health, ServiceSession.request]
    by_cases hc : 400 ≤ st ∧ st < 600
    · rw [if_pos hc]; exact degraded_unreachable _
    · rw [if_neg hc]
      by_cases h200 : st = 200
      · subst h200
        simp only [beq_self_eq_true, if_true]
        exact degraded_unreachable _
      · have hbeq : (st == 200) = false := beq_eq_false_iff_ne.mpr h200
        simp only [hbeq, Bool.false_eq_true, if_false]
        exact degraded_unhealthy _
  · intro hne
    rw [embedding_check_health]
    have hbeq : (st == 200) = false := beq_eq_false_iff_ne.mpr hne
    simp only [hbeq, Bool.false_eq_true, if_false]
    exact degraded_unhealthy _
  · rw [embedding_check_health]
    by_cases h200 : st = 200
    · subst h200
      simp only [beq_self_eq_true, if_true]
      exact degraded_unreachable _
    · have hbeq : (st == 200) = false := beq_eq_false_iff_ne.mpr h200
      simp only [hbeq, Bool.false_eq_true, if_false]
      exact degraded_unhealthy _

/-- Witness for C9: concrete failures of all four clients produce degraded
status dicts (and one healthy LLM probe). -/
theorem check_health_always_degraded_witness :
    degradedReport (stt_check_health (.success resp503)) ∧
    degradedReport (tts_check_health (.success { status := 202, body := none, content := [] })) ∧
    degradedReport (embedding_check_health (.raised "connection refused")) ∧
    degradedReport (llm_check_health (.error (.plainExc "down")) (.error (.plainExc "down"))) ∧
    jLookup (llm_check_health (.ok 3) (.error (.plainExc "down"))) "status" =
      some (.jstr "healthy") := by
  have h := check_health_always_degraded 503 none [] "connection refused"
    (.plainExc "down") (.plainExc "down") 3 "hi"
  have h202 := check_health_always_degraded 202 none [] "connection refused"
    (.plainExc "down") (.plainExc "down") 3 "hi"
  exact ⟨h.2.2.1 (by omega) (by omega), h202.2.2.2.2.2.2.1 (by omega),
    h.2.2.2.2.2.2.2.2.1, h.2.2.2.2.2.2.2.2.2.2.2.1, h.2.2.2.2.2.2.2.2.2.2.2.2.1⟩

/-! ### Lazy singleton initialization race -/

/-- C10 counterexample: with the unsynchronized `get_rag_service`, the
interleaving in which both threads pass the `is None` test before either
assigns the global constructs the service twice and hands the two callers
two different instances. -/
theorem rag_singleton_race_counterexample :
    (runSched raceSched initRace).constructions = 2 ∧
    (runSched raceSched initRace).constructions ≠ 1 ∧
    (runSched raceSched initRace).t0.ret = some 0 ∧
    (runSched raceSched initRace).t1.ret = some 1 ∧
    (runSched raceSched initRace).t0.ret ≠ (runSched raceSched initRace).t1.ret := by
  refine ⟨rfl, by decide, rfl, rfl, by decide⟩

/-- C10 (amended): when the two first accesses run sequentially (either
order), the service is constructed exactly once and both callers receive
the same instance; but `get_rag_service` takes no lock, so there exists an
interleaving of two concurrent first accesses that constructs the
underlying service twice and gives the callers different instances. -/
theorem rag_singleton_lazy_init :
    ((runSched seqSched01 initRace).constructions = 1 ∧
     (runSched seqSched01 initRace).t0.ret = some 0 ∧
     (runSched seqSched01 initRace).t1.ret = some 0) ∧
    ((runSched seqSched10 initRace).constructions = 1 ∧
     (runSched seqSched10 initRace).t0.ret = some 0 ∧
     (runSched seqSched10 initRace).t1.ret = some 0) ∧
    (∃ sched : List Bool, (runSched sched initRace).constructions = 2 ∧
      (runSched sched initRace).t0.ret ≠ (runSched sched initRace).t1.ret) := by
  refine ⟨⟨rfl, rfl, rfl⟩, ⟨rfl, rfl, rfl⟩, ⟨raceSched, rfl, by decide⟩⟩
